import Mathlib

/-!
# Verification of the GrowTalk tutoring orchestrator

A shallow embedding of the Python sources (`whatsapp_webhook.py`,
`vocab_session_controller.py`, `reading_session_controller.py`,
`open_reading_session_controller.py`, `whatsapp_utils.py`, `sheet_utils.py`,
`llm_utils.py`).  Stateful code is modelled in a small monad over a system
state `Sys` that also accumulates an event trace; fallible code (Python
exceptions) is modelled with `Except String`.  External collaborators
(the LLM judge/generators, Google Sheets content, the WhatsApp transport)
are parameters collected in an `Env` record.
-/

namespace GrowTalk

/-! ## Data model: sheet rows and session records -/

/-- A row of the vocabulary sheet (`Question List` / `vocab`). -/
structure VocabRow where
  Day : Nat
  Vocabulary : String
  PartOfSpeech : String
  Examples : String
  ChineseExplaination : String
  Tips : String
  Roots : String
  MemStories : String
deriving DecidableEq

/-- A row of the closed-ended comprehension sheet. -/
structure ClosedRow where
  day_of_training : Nat
  question_id : Nat
  question_text : String
  answer_text : String
  passage_text : String
deriving DecidableEq

/-- A row of the open-ended question sheet. -/
structure OpenRow where
  day_of_training : Nat
  question_id : Nat
  question_text : String
  answer_text : String
  learning_objective : String
deriving DecidableEq

/-- A row of the user sheet: the durable per-student progress cursors. -/
structure UserRec where
  eng_name : String
  day_of_training : Nat
  current_question_number : Nat
  current_vocab_number : Nat
  current_open_question_number : Nat
deriving DecidableEq

/-- Entry of `vocab_sessions` (vocab_session_controller.py). -/
structure VocabSession where
  attempt : Nat
  last_vocab : VocabRow
deriving DecidableEq

/-- Entry of `reading_sessions` (reading_session_controller.py). -/
structure ReadingSession where
  passage : String
  question : String
  attempt : Nat
  mode : String
  last_user_answer : String
deriving DecidableEq

/-- Entry of `open_reading_sessions` (open_reading_session_controller.py). -/
structure OpenSession where
  question : String
deriving DecidableEq

/-- The three learning tracks. -/
inductive Track
  | vocab
  | closed
  | openT
deriving DecidableEq

/-- Observable events, emitted in source order: a message-send attempt, a
durable cursor advancement, creation of a session-map entry, deletion of a
session-map entry. -/
inductive Event
  | sent (phone : Nat) (message : String)
  | advanced (phone : Nat) (track : Track)
  | created (phone : Nat) (track : Track)
  | deleted (phone : Nat) (track : Track)
deriving DecidableEq

/-- Whole mutable state: the user sheet rows (durable cursors) and the four
in-memory per-phone dictionaries. -/
structure Sys where
  users : Nat → Option UserRec
  vocab_sessions : Nat → Option VocabSession
  reading_sessions : Nat → Option ReadingSession
  open_reading_sessions : Nat → Option OpenSession
  last_sent_messages : Nat → Option String

/-- Python dict update / deletion on a `Nat`-keyed map. -/
def upd {β : Type} (m : Nat → Option β) (k : Nat) (v : Option β) : Nat → Option β :=
  fun k2 => if k2 = k then v else m k2

/-! ## The effect monad: state, an event trace, and Python exceptions -/

/-- Computation over `Sys` producing a value or an exception, the updated
state, and the list of events emitted (in order).  On an exception the state
reached so far and the events already emitted are kept, as in Python. -/
def M (α : Type) : Type := Sys → Except String α × Sys × List Event

def M.pure {α : Type} (a : α) : M α := fun s => (Except.ok a, s, [])

def M.bind {α β : Type} (x : M α) (f : α → M β) : M β := fun s =>
  match x s with
  | (Except.ok a, s1, ev1) => ((f a s1).1, (f a s1).2.1, ev1 ++ (f a s1).2.2)
  | (Except.error e, s1, ev1) => (Except.error e, s1, ev1)

instance instMonadM : Monad M where
  pure := M.pure
  bind := M.bind

/-- Raise a Python exception. -/
def M.throw {α : Type} (msg : String) : M α := fun s => (Except.error msg, s, [])

/-! ## Python string helpers

`message.strip()` and `.lower()` and the `in` substring operator, modelled
on the character list underlying the string. -/

def pyStrip (s : String) : String :=
  String.mk (((s.data.dropWhile Char.isWhitespace).reverse.dropWhile
    Char.isWhitespace).reverse)

def pyLower (s : String) : String := String.mk (s.data.map Char.toLower)

/-- Python `needle in haystack` on strings. -/
def pyContains (haystack needle : String) : Bool :=
  decide (needle.data <:+: haystack.data)

/-! ## External collaborators (`Env`)

Content sheets are immutable, so they live here; the LLM judge calls and
text generators are opaque functions; the transport outcome of each POST is
a function of the phone number and message. -/

/-- Outcome of the `requests.post` call inside `send_whatsapp_message`:
HTTP 200, a non-200 status, or a raised exception. -/
inductive TransportOutcome
  | ok200
  | failStatus
  | raiseExc
deriving DecidableEq

/-- Yields `true` exactly on HTTP 200; a non-200 status or a raised exception both
yield `False` (the `except` clause catches everything). -/
def transportSuccess : TransportOutcome → Bool
  | .ok200 => true
  | .failStatus => false
  | .raiseExc => false

structure Env where
  vocab_rows : List VocabRow
  closed_rows : List ClosedRow
  open_rows : List OpenRow
  /-- Raw text reply of the correctness oracle in `evaluate_answer`. -/
  llm_correct_reply : String → String → String
  is_student_answering_question : String → String → Bool
  is_reply_relevant_to_learning : String → String → Bool
  greet_student : String → String
  ask_vocab_meaning_question : VocabRow → String
  give_vocab_correct_reply : VocabRow → String
  /-- Text produced by `give_vocab_hint_or_explanation` once the attempt
  value has passed its validity check. -/
  vocab_hint_text : VocabRow → String → Nat → String
  generate_question_message : String → String → String → String
  /-- Text produced by `give_hint_or_explanation` (closed reading) once the
  attempt value has passed its validity check. -/
  reading_hint_text : String → String → String → String → Nat → String
  ask_why_correct : String → String → String → String
  respond_to_reflection : String → String → String → String → String
  ask_open_question : String → String
  respond_to_open_answer : String → String → String → String → String
  generate_answer_to_student_question : String → String
  handle_irrelevant_input_with_llm : String → String
  transport : Nat → String → TransportOutcome

/-! ## whatsapp_utils.py -/

/-- Python `send_whatsapp_message`: records the outgoing text in
`last_sent_messages` first (inside the `try`, before the POST), then
attempts delivery; returns `True` on HTTP 200 and `False` otherwise,
catching any transport exception.  It never raises. -/
def send_whatsapp_message (env : Env) (phone : Nat) (message : String) : M Bool :=
  fun s =>
    let s1 : Sys :=
      { s with last_sent_messages := upd s.last_sent_messages phone (some message) }
    (Except.ok (transportSuccess (env.transport phone message)), s1,
      [Event.sent phone message])

/-! ## sheet_utils.py -/

/-- Python `get_student_name_by_phone`: raises when the phone number is absent. -/
def get_student_name_by_phone (phone : Nat) : M String := fun s =>
  match s.users phone with
  | some u => (Except.ok u.eng_name, s, [])
  | none => (Except.error "Student not found.", s, [])

/-- Python `get_current_vocab_row`: filters the vocab sheet by the day of the student and
indexes with the vocab cursor; `None` when the list of the day is exhausted. -/
def get_current_vocab_row (env : Env) (phone : Nat) : M (Option VocabRow) :=
  fun s =>
    match s.users phone with
    | none => (Except.error "Phone number not found in sheet.", s, [])
    | some u =>
      let vocab_data := env.vocab_rows.filter (fun v => v.Day == u.day_of_training)
      (Except.ok vocab_data[u.current_vocab_number]?, s, [])

/-- Python `advance_vocab_index`: increments `current_vocab_number` by 1. -/
def advance_vocab_index (phone : Nat) : M Unit := fun s =>
  match s.users phone with
  | none => (Except.error "Phone number not found in sheet.", s, [])
  | some u =>
    let u2 := { u with current_vocab_number := u.current_vocab_number + 1 }
    (Except.ok (), { s with users := upd s.users phone (some u2) },
      [Event.advanced phone Track.vocab])

/-- Python `get_passage`: first comprehension row whose day matches. -/
def get_passage (env : Env) (phone : Nat) : M String := fun s =>
  match s.users phone with
  | none => (Except.error "Phone number not found in sheet.", s, [])
  | some u =>
    match env.closed_rows.find? (fun r => r.day_of_training == u.day_of_training) with
    | some r => (Except.ok r.passage_text, s, [])
    | none => (Except.error "No passage found for day", s, [])

/-- Python `get_current_question`: row matching the day and the question cursor. -/
def get_current_question (env : Env) (phone : Nat) : M String := fun s =>
  match s.users phone with
  | none => (Except.error "Phone number not found in sheet.", s, [])
  | some u =>
    match env.closed_rows.find? (fun r =>
        r.day_of_training == u.day_of_training &&
        r.question_id == u.current_question_number) with
    | some r => (Except.ok r.question_text, s, [])
    | none => (Except.error "Cannot find question", s, [])

/-- Python `get_current_answer`: answer of the row matching day and cursor. -/
def get_current_answer (env : Env) (phone : Nat) : M String := fun s =>
  match s.users phone with
  | none => (Except.error "Phone number not found in sheet.", s, [])
  | some u =>
    match env.closed_rows.find? (fun r =>
        r.day_of_training == u.day_of_training &&
        r.question_id == u.current_question_number) with
    | some r => (Except.ok r.answer_text, s, [])
    | none => (Except.error "Cannot find question", s, [])

/-- Python `advance_question_progress`: increments `current_question_number`. -/
def advance_question_progress (phone : Nat) : M Unit := fun s =>
  match s.users phone with
  | none => (Except.error "Phone number not found in sheet.", s, [])
  | some u =>
    let u2 := { u with current_question_number := u.current_question_number + 1 }
    (Except.ok (), { s with users := upd s.users phone (some u2) },
      [Event.advanced phone Track.closed])

/-- Python `get_open_question`: open-ended row matching day and open cursor. -/
def get_open_question (env : Env) (phone : Nat) : M String := fun s =>
  match s.users phone with
  | none => (Except.error "Phone number not found in sheet.", s, [])
  | some u =>
    match env.open_rows.find? (fun r =>
        r.day_of_training == u.day_of_training &&
        r.question_id == u.current_open_question_number) with
    | some r => (Except.ok r.question_text, s, [])
    | none => (Except.error "Cannot find open-ended question", s, [])

/-- Python `get_open_question_objective`. -/
def get_open_question_objective (env : Env) (phone : Nat) : M String := fun s =>
  match s.users phone with
  | none => (Except.error "Phone number not found in sheet.", s, [])
  | some u =>
    match env.open_rows.find? (fun r =>
        r.day_of_training == u.day_of_training &&
        r.question_id == u.current_open_question_number) with
    | some r => (Except.ok r.learning_objective, s, [])
    | none => (Except.error "Cannot find learning objective for current open-ended question.", s, [])

/-- Python `get_open_question_ans`. -/
def get_open_question_ans (env : Env) (phone : Nat) : M String := fun s =>
  match s.users phone with
  | none => (Except.error "Phone number not found in sheet.", s, [])
  | some u =>
    match env.open_rows.find? (fun r =>
        r.day_of_training == u.day_of_training &&
        r.question_id == u.current_open_question_number) with
    | some r => (Except.ok r.answer_text, s, [])
    | none => (Except.error "Cannot find answer for current open-ended question.", s, [])

/-- Python `advance_open_question_progress`: increments `current_open_question_number`. -/
def advance_open_question_progress (phone : Nat) : M Unit := fun s =>
  match s.users phone with
  | none => (Except.error "Phone number not found in sheet.", s, [])
  | some u =>
    let u2 := { u with current_open_question_number :=
      u.current_open_question_number + 1 }
    (Except.ok (), { s with users := upd s.users phone (some u2) },
      [Event.advanced phone Track.openT])

/-! ## llm_utils.py (the parts with logic of their own) -/

/-- The parsing step of `evaluate_answer`: looks for the lower-cased markers
in the raw oracle reply, checking the `true` marker first; raises a
`ValueError` when neither marker occurs. -/
def parse_is_correct_reply (reply : String) : Except String Bool :=
  if pyContains (pyLower reply) "\"is_correct\": true" then Except.ok true
  else if pyContains (pyLower reply) "\"is_correct\": false" then Except.ok false
  else Except.error ("Unexpected LLM response: " ++ reply)

/-- Python `evaluate_answer`: obtains the raw oracle reply and parses it. -/
def evaluate_answer (env : Env) (user_answer correct_answer : String) : M Bool :=
  fun s => (parse_is_correct_reply (env.llm_correct_reply user_answer correct_answer), s, [])

/-- Python `give_vocab_hint_or_explanation`: raises `ValueError` unless the attempt
argument is 1 or 2, then produces the hint (attempt 1) or explanation
(attempt 2) text. -/
def give_vocab_hint_or_explanation (env : Env) (vocab_row : VocabRow)
    (user_answer : String) (attempt : Nat) : M String := fun s =>
  if attempt = 1 ∨ attempt = 2 then
    (Except.ok (env.vocab_hint_text vocab_row user_answer attempt), s, [])
  else
    (Except.error "Attempt must be either 1 or 2.", s, [])

/-- Python `give_hint_or_explanation` (closed reading): raises `ValueError` unless
the attempt argument is between 1 and 3. -/
def give_hint_or_explanation (env : Env)
    (user_answer correct_answer question_text passage : String)
    (attempt : Nat) : M String := fun s =>
  if attempt < 1 ∨ attempt > 3 then
    (Except.error "Attempt must be between 1 and 3", s, [])
  else
    (Except.ok (env.reading_hint_text user_answer correct_answer question_text
      passage attempt), s, [])

/-! ## Session-map primitives (dict reads, writes and deletions) -/

def getVocabSession (phone : Nat) : M (Option VocabSession) := fun s =>
  (Except.ok (s.vocab_sessions phone), s, [])

/-- Python `vocab_sessions[phone_number] = {...}` in `start_vocab_session`:
creation of a session-map entry. -/
def putVocabSession (phone : Nat) (v : VocabSession) : M Unit := fun s =>
  (Except.ok (), { s with vocab_sessions := upd s.vocab_sessions phone (some v) },
    [Event.created phone Track.vocab])

/-- In-place mutation `vocab_sessions[phone_number]["attempt"] = 2`. -/
def setVocabSession (phone : Nat) (v : VocabSession) : M Unit := fun s =>
  (Except.ok (), { s with vocab_sessions := upd s.vocab_sessions phone (some v) }, [])

/-- Python `del vocab_sessions[phone_number]`. -/
def deleteVocabSession (phone : Nat) : M Unit := fun s =>
  (Except.ok (), { s with vocab_sessions := upd s.vocab_sessions phone none },
    [Event.deleted phone Track.vocab])

def getReadingSession (phone : Nat) : M (Option ReadingSession) := fun s =>
  (Except.ok (s.reading_sessions phone), s, [])

/-- Python `reading_sessions[phone_number] = {...}` in `start_reading_session`. -/
def putReadingSession (phone : Nat) (v : ReadingSession) : M Unit := fun s =>
  (Except.ok (), { s with reading_sessions := upd s.reading_sessions phone (some v) },
    [Event.created phone Track.closed])

/-- In-place mutations of an existing `reading_sessions` entry. -/
def setReadingSession (phone : Nat) (v : ReadingSession) : M Unit := fun s =>
  (Except.ok (), { s with reading_sessions := upd s.reading_sessions phone (some v) }, [])

/-- Python `del reading_sessions[phone_number]`. -/
def deleteReadingSession (phone : Nat) : M Unit := fun s =>
  (Except.ok (), { s with reading_sessions := upd s.reading_sessions phone none },
    [Event.deleted phone Track.closed])

def getOpenSession (phone : Nat) : M (Option OpenSession) := fun s =>
  (Except.ok (s.open_reading_sessions phone), s, [])

/-- Python `open_reading_sessions[phone_number] = {...}`. -/
def putOpenSession (phone : Nat) (v : OpenSession) : M Unit := fun s =>
  (Except.ok (),
    { s with open_reading_sessions := upd s.open_reading_sessions phone (some v) },
    [Event.created phone Track.openT])

/-- Python `del open_reading_sessions[phone_number]`. -/
def deleteOpenSession (phone : Nat) : M Unit := fun s =>
  (Except.ok (),
    { s with open_reading_sessions := upd s.open_reading_sessions phone none },
    [Event.deleted phone Track.openT])

/-- Python `last_sent_messages.get(phone_number, "")`. -/
def getLastSentOrEmpty (phone : Nat) : M String := fun s =>
  (Except.ok ((s.last_sent_messages phone).getD ""), s, [])

/-! ## vocab_session_controller.py -/

def vocabDoneMsg : String :=
  "🎉 你已經完成哂今日所有生字啦，做得好叻！輸入 \x27warm up\x27 開始今日既 Reading Warm-up Exercise 啦~"

def vocabReentryMsg : String :=
  "各位同學今朝俾咗大家幾個生字，唔知道大家記得幾多呢？無論你學咗幾多都唔緊要，跟住落嚟我哋一齊去背呢幾隻生字啦！你準備好嘅時候請先輸入 \x27vocab\x27 開始今日生字學習 ✍️"

/-- Python `start_vocab_session`: fetch the current vocab row; if none remains send
the completion notification and create no session; otherwise create a
session with attempt 1 and send the meaning question. -/
def start_vocab_session (env : Env) (phone : Nat) : M Unit := do
  let vocab_row ← get_current_vocab_row env phone
  match vocab_row with
  | none =>
    let _ ← send_whatsapp_message env phone vocabDoneMsg
    pure ()
  | some row =>
    let message := env.ask_vocab_meaning_question row
    putVocabSession phone { attempt := 1, last_vocab := row }
    let _ ← send_whatsapp_message env phone message
    pure ()

/-- Python `handle_vocab_reply`: evaluate the answer; on correct, praise, advance
the vocab cursor, delete the session and auto-chain; on incorrect at
attempt 1, hint (passing the literal attempt 1) and set attempt to 2;
otherwise explanation (passing the literal attempt 2), advance, delete,
send, auto-chain. -/
def handle_vocab_reply (env : Env) (phone : Nat) (user_reply : String) : M Unit := do
  let sessionOpt ← getVocabSession phone
  match sessionOpt with
  | none =>
    let _ ← send_whatsapp_message env phone vocabReentryMsg
    pure ()
  | some session =>
    let vocab_row := session.last_vocab
    let correct_answer := vocab_row.ChineseExplaination
    let attempt := session.attempt
    let is_correct ← evaluate_answer env user_reply correct_answer
    if is_correct then
      let msg := env.give_vocab_correct_reply vocab_row
      let _ ← send_whatsapp_message env phone msg
      advance_vocab_index phone
      deleteVocabSession phone
      start_vocab_session env phone
    else
      if attempt = 1 then
        let msg ← give_vocab_hint_or_explanation env vocab_row user_reply 1
        setVocabSession phone { session with attempt := 2 }
        let _ ← send_whatsapp_message env phone msg
        pure ()
      else
        let msg ← give_vocab_hint_or_explanation env vocab_row user_reply 2
        advance_vocab_index phone
        deleteVocabSession phone
        let _ ← send_whatsapp_message env phone msg
        start_vocab_session env phone

/-! ## reading_session_controller.py -/

def readingReentryMsg : String := "請先輸入 \x27reading\x27 開始今日閱讀任務 ✍️"

def readingRetryMsg : String := "❓再試吓回答呢條問題啦："

/-- Python `start_reading_session`: fetch passage, question and name (each lookup
may raise), compose the question message, create the session with attempt 1
and empty mode, and send.  `prior_learning` defaults to the empty string in
the source (`None` coerced to `""`). -/
def start_reading_session (env : Env) (phone : Nat) (prior_learning : String) :
    M Unit := do
  let passage ← get_passage env phone
  let question ← get_current_question env phone
  let student_name ← get_student_name_by_phone phone
  let full_message := env.generate_question_message question student_name prior_learning
  putReadingSession phone
    { passage, question, attempt := 1, mode := "", last_user_answer := "" }
  let _ ← send_whatsapp_message env phone full_message
  pure ()

/-- Python `handle_reading_reply`: reflection mode responds, advances the closed
cursor, deletes and auto-chains with the reflection text; normal mode does
the intent/relevance checks, then correctness, with the three-tier attempt
escalation. -/
def handle_reading_reply (env : Env) (phone : Nat) (user_reply : String) :
    M Unit := do
  let sessionOpt ← getReadingSession phone
  match sessionOpt with
  | none =>
    let _ ← send_whatsapp_message env phone readingReentryMsg
    pure ()
  | some session =>
    if session.mode == "reflection" then
      let reflection_reply := user_reply
      let question := session.question
      let correct_answer ← get_current_answer env phone
      let passage := session.passage
      let response := env.respond_to_reflection reflection_reply question
        correct_answer passage
      let _ ← send_whatsapp_message env phone response
      advance_question_progress phone
      deleteReadingSession phone
      start_reading_session env phone reflection_reply
    else
      let passage := session.passage
      let question := session.question
      let attempt := session.attempt
      let correct_answer ← get_current_answer env phone
      if ! env.is_student_answering_question user_reply question then
        if env.is_reply_relevant_to_learning user_reply question then
          let reply := env.generate_answer_to_student_question user_reply
          let _ ← send_whatsapp_message env phone reply
          pure ()
        else
          let response := env.handle_irrelevant_input_with_llm user_reply
          let _ ← send_whatsapp_message env phone response
          pure ()
      else
        let is_correct ← evaluate_answer env user_reply correct_answer
        if is_correct then
          let why_msg := env.ask_why_correct question user_reply passage
          let _ ← send_whatsapp_message env phone why_msg
          setReadingSession phone
            { session with mode := "reflection", last_user_answer := user_reply }
          pure ()
        else
          if attempt < 3 then
            let hint_msg ← give_hint_or_explanation env user_reply correct_answer
              question passage attempt
            setReadingSession phone { session with attempt := session.attempt + 1 }
            let _ ← send_whatsapp_message env phone hint_msg
            let _ ← send_whatsapp_message env phone (readingRetryMsg ++ question)
            pure ()
          else
            let explanation ← give_hint_or_explanation env user_reply correct_answer
              question passage 3
            let _ ← send_whatsapp_message env phone explanation
            advance_question_progress phone
            deleteReadingSession phone
            start_reading_session env phone ""

/-! ## open_reading_session_controller.py -/

def openReentryMsg : String := "請先輸入 \x27Warm up\x27 開始開放式閱讀任務 ✍️"

def openRedirectMsg : String := "呢個問題好有趣，但不如我哋先集中討論文章內容 😄"

/-- Python `start_open_reading_session`: fetch the open question (may raise),
create the session, send the question message. -/
def start_open_reading_session (env : Env) (phone : Nat) : M Unit := do
  let question ← get_open_question env phone
  putOpenSession phone { question }
  let message := env.ask_open_question question
  let _ ← send_whatsapp_message env phone message
  pure ()

/-- Python `handle_open_reading_reply`: a non-relevant reply gets a redirect and
leaves the session; a relevant reply gets a generated response, advances the
open cursor, deletes the session and auto-chains. -/
def handle_open_reading_reply (env : Env) (phone : Nat) (user_reply : String) :
    M Unit := do
  let sessionOpt ← getOpenSession phone
  match sessionOpt with
  | none =>
    let _ ← send_whatsapp_message env phone openReentryMsg
    pure ()
  | some session =>
    let question := session.question
    if ! env.is_reply_relevant_to_learning user_reply question then
      let _ ← send_whatsapp_message env phone openRedirectMsg
      pure ()
    else
      let learning_objective ← get_open_question_objective env phone
      let answer ← get_open_question_ans env phone
      let reply := env.respond_to_open_answer user_reply question
        learning_objective answer
      let _ ← send_whatsapp_message env phone reply
      advance_open_question_progress phone
      deleteOpenSession phone
      start_open_reading_session env phone

/-! ## whatsapp_webhook.py -/

/-- The default fallback of `receive_message` (source lines 103-122):
classify the message against the last sent prompt; an answer attempt goes to
the vocab reply handler; a learning-relevant message gets a direct answer
followed by a vocab session (re)start; otherwise an off-topic redirect. -/
def vocab_default_flow (env : Env) (phone : Nat) (message : String) : M Unit := do
  let question_prompt ← getLastSentOrEmpty phone
  if env.is_student_answering_question message question_prompt then
    handle_vocab_reply env phone message
  else
    if env.is_reply_relevant_to_learning message question_prompt then
      let response := env.generate_answer_to_student_question message
      let _ ← send_whatsapp_message env phone response
      start_vocab_session env phone
    else
      let response := env.handle_irrelevant_input_with_llm message
      let _ ← send_whatsapp_message env phone response
      pure ()

/-- Python `receive_message`: normalizes the inbound text (`strip` then `lower`),
looks up the name of the student (raising when absent), then applies the fixed
precedence: the four command triggers by substring containment, the open
reading session, the closed reading session, and the vocab default flow. -/
def receive_message (env : Env) (phone : Nat) (rawMessage : String) : M Unit := do
  let message := pyLower (pyStrip rawMessage)
  let student_name ← get_student_name_by_phone phone
  if pyContains message "start" then
    let greet := env.greet_student student_name
    let _ ← send_whatsapp_message env phone greet
    pure ()
  else if pyContains message "vocab" then
    start_vocab_session env phone
  else if pyContains message "reading" then
    start_reading_session env phone ""
  else if pyContains message "warm up" then
    start_open_reading_session env phone
  else
    let sOpen ← getOpenSession phone
    if sOpen.isSome then
      handle_open_reading_reply env phone message
    else
      let sRead ← getReadingSession phone
      if sRead.isSome then
        handle_reading_reply env phone message
      else
        vocab_default_flow env phone message

/-! ## Trace helpers -/

/-- Recognize cursor-advancement events of any student and track. -/
def isAdvancedEv : Event → Bool
  | .advanced _ _ => true
  | _ => false

/-- Computes `true` when, among the `created`/`deleted` events of the given student
and track, a `deleted` comes first (or neither kind occurs). -/
def delBeforeCreate (phone : Nat) (t : Track) : List Event → Bool
  | [] => true
  | e :: rest =>
    if e = Event.created phone t then false
    else if e = Event.deleted phone t then true
    else delBeforeCreate phone t rest

/-! ## Frame lemmas for the auto-chained starts -/

theorem start_vocab_users (env : Env) (phone : Nat) (s : Sys) :
    (start_vocab_session env phone s).2.1.users = s.users := by
  unfold start_vocab_session get_current_vocab_row
  rcases hu : s.users phone with _ | u
  · simp [M.bind, bind, instMonadM, hu]
  · rcases hrow : (env.vocab_rows.filter
        (fun v => v.Day == u.day_of_training))[u.current_vocab_number]? with _ | row
    · simp [M.bind, M.pure, bind, pure, instMonadM, hu, hrow,
        send_whatsapp_message]
    · simp [M.bind, M.pure, bind, pure, instMonadM, hu, hrow,
        send_whatsapp_message, putVocabSession]

theorem start_vocab_advfree (env : Env) (phone : Nat) (s : Sys) :
    (start_vocab_session env phone s).2.2.filter isAdvancedEv = [] := by
  unfold start_vocab_session get_current_vocab_row
  rcases hu : s.users phone with _ | u
  · simp [M.bind, bind, instMonadM, hu]
  · rcases hrow : (env.vocab_rows.filter
        (fun v => v.Day == u.day_of_training))[u.current_vocab_number]? with _ | row
    · simp [M.bind, M.pure, bind, pure, instMonadM, hu, hrow,
        send_whatsapp_message, isAdvancedEv]
    · simp [M.bind, M.pure, bind, pure, instMonadM, hu, hrow,
        send_whatsapp_message, putVocabSession, isAdvancedEv]

theorem start_vocab_ok (env : Env) (phone : Nat) (s : Sys)
    (h : (s.users phone).isSome) :
    (start_vocab_session env phone s).1 = Except.ok () := by
  unfold start_vocab_session get_current_vocab_row
  rcases hu : s.users phone with _ | u
  · rw [hu] at h; simp at h
  · rcases hrow : (env.vocab_rows.filter
        (fun v => v.Day == u.day_of_training))[u.current_vocab_number]? with _ | row
    · simp [M.bind, M.pure, bind, pure, instMonadM, hu, hrow,
        send_whatsapp_message]
    · simp [M.bind, M.pure, bind, pure, instMonadM, hu, hrow,
        send_whatsapp_message, putVocabSession]

theorem start_reading_users (env : Env) (phone : Nat) (pl : String) (s : Sys) :
    (start_reading_session env phone pl s).2.1.users = s.users := by
  unfold start_reading_session get_passage get_current_question
    get_student_name_by_phone
  rcases hu : s.users phone with _ | u
  · simp [M.bind, bind, instMonadM, hu]
  · rcases hp : env.closed_rows.find?
        (fun r => r.day_of_training == u.day_of_training) with _ | prow
    · simp [M.bind, bind, instMonadM, hu, hp]
    · rcases hq : env.closed_rows.find? (fun r =>
          r.day_of_training == u.day_of_training &&
          r.question_id == u.current_question_number) with _ | qrow
      · simp [M.bind, bind, instMonadM, hu, hp, hq]
      · simp [M.bind, M.pure, bind, pure, instMonadM, hu, hp, hq,
          send_whatsapp_message, putReadingSession]

theorem start_reading_advfree (env : Env) (phone : Nat) (pl : String) (s : Sys) :
    (start_reading_session env phone pl s).2.2.filter isAdvancedEv = [] := by
  unfold start_reading_session get_passage get_current_question
    get_student_name_by_phone
  rcases hu : s.users phone with _ | u
  · simp [M.bind, bind, instMonadM, hu]
  · rcases hp : env.closed_rows.find?
        (fun r => r.day_of_training == u.day_of_training) with _ | prow
    · simp [M.bind, bind, instMonadM, hu, hp]
    · rcases hq : env.closed_rows.find? (fun r =>
          r.day_of_training == u.day_of_training &&
          r.question_id == u.current_question_number) with _ | qrow
      · simp [M.bind, bind, instMonadM, hu, hp, hq]
      · simp [M.bind, M.pure, bind, pure, instMonadM, hu, hp, hq,
          send_whatsapp_message, putReadingSession, isAdvancedEv]

theorem start_open_users (env : Env) (phone : Nat) (s : Sys) :
    (start_open_reading_session env phone s).2.1.users = s.users := by
  unfold start_open_reading_session get_open_question
  rcases hu : s.users phone with _ | u
  · simp [M.bind, bind, instMonadM, hu]
  · rcases hq : env.open_rows.find? (fun r =>
        r.day_of_training == u.day_of_training &&
        r.question_id == u.current_open_question_number) with _ | qrow
    · simp [M.bind, bind, instMonadM, hu, hq]
    · simp [M.bind, M.pure, bind, pure, instMonadM, hu, hq,
        send_whatsapp_message, putOpenSession]

theorem start_open_advfree (env : Env) (phone : Nat) (s : Sys) :
    (start_open_reading_session env phone s).2.2.filter isAdvancedEv = [] := by
  unfold start_open_reading_session get_open_question
  rcases hu : s.users phone with _ | u
  · simp [M.bind, bind, instMonadM, hu]
  · rcases hq : env.open_rows.find? (fun r =>
        r.day_of_training == u.day_of_training &&
        r.question_id == u.current_open_question_number) with _ | qrow
    · simp [M.bind, bind, instMonadM, hu, hq]
    · simp [M.bind, M.pure, bind, pure, instMonadM, hu, hq,
        send_whatsapp_message, putOpenSession, isAdvancedEv]

/-- Reduction of a bind whose first computation succeeds without changing
the state or emitting events. -/
theorem bind_ok_nil {α β : Type} (x : M α) (f : α → M β) (s : Sys) (a : α)
    (h : x s = (Except.ok a, s, [])) : (x >>= f) s = f a s := by
  show M.bind x f s = f a s
  unfold M.bind
  rw [h]
  simp

/-! ## Concrete witness data -/

def vrowW : VocabRow :=
  { Day := 1, Vocabulary := "apple", PartOfSpeech := "noun", Examples := "ex",
    ChineseExplaination := "mean", Tips := "tip", Roots := "root", MemStories := "mem" }

def crowW : ClosedRow :=
  { day_of_training := 1, question_id := 1, question_text := "q1",
    answer_text := "a1", passage_text := "p1" }

def crowW2 : ClosedRow :=
  { day_of_training := 1, question_id := 2, question_text := "q2",
    answer_text := "a2", passage_text := "p1" }

def orowW : OpenRow :=
  { day_of_training := 1, question_id := 1, question_text := "oq1",
    answer_text := "oa1", learning_objective := "obj" }

def userW : UserRec :=
  { eng_name := "Amy", day_of_training := 1, current_question_number := 1,
    current_vocab_number := 0, current_open_question_number := 1 }

def envW : Env where
  vocab_rows := [vrowW]
  closed_rows := [crowW, crowW2]
  open_rows := [orowW]
  llm_correct_reply := fun _ _ => "\"is_correct\": true"
  is_student_answering_question := fun _ _ => true
  is_reply_relevant_to_learning := fun _ _ => true
  greet_student := fun n => "hello " ++ n
  ask_vocab_meaning_question := fun r => "meaning of " ++ r.Vocabulary
  give_vocab_correct_reply := fun _ => "well done"
  vocab_hint_text := fun _ _ a => "vhint" ++ toString a
  generate_question_message := fun q n p => n ++ q ++ p
  reading_hint_text := fun _ _ _ _ a => "rhint" ++ toString a
  ask_why_correct := fun _ _ _ => "why"
  respond_to_reflection := fun _ _ _ _ => "nice reflection"
  ask_open_question := fun q => "open " ++ q
  respond_to_open_answer := fun _ _ _ _ => "open resp"
  generate_answer_to_student_question := fun _ => "direct answer"
  handle_irrelevant_input_with_llm := fun _ => "redirect"
  transport := fun _ _ => TransportOutcome.ok200

def sysW : Sys where
  users := fun p => if p = 1 then some userW else none
  vocab_sessions := fun p => if p = 1 then some { attempt := 1, last_vocab := vrowW } else none
  reading_sessions := fun p =>
    if p = 1 then
      some { passage := "p1", question := "q1", attempt := 1, mode := "",
             last_user_answer := "" }
    else none
  open_reading_sessions := fun p => if p = 1 then some { question := "oq1" } else none
  last_sent_messages := fun _ => none

/-! ## Claim theorems -/

/-- C7: a failed send — non-200 transport status or a raised transport
exception — is reported to the caller only as the boolean `false`, never as
an exception; and in the vocabulary attempt-2 exhaustion path the durable
vocab cursor advancement and the session deletion are already committed
(they precede the send attempt in the event trace, and the advanced cursor
survives in the final state) when the explanation message is sent, even
though the transport of that send fails. -/
theorem notifier_failure_is_boolean_and_progress_committed
    (env : Env) (phone : Nat) (user_reply : String) (s : Sys)
    (u : UserRec) (session : VocabSession)
    (husers : s.users phone = some u)
    (hsess : s.vocab_sessions phone = some session)
    (hatt : session.attempt ≠ 1)
    (hwrong : parse_is_correct_reply
      (env.llm_correct_reply user_reply session.last_vocab.ChineseExplaination) =
      Except.ok false)
    (_hfail : env.transport phone
      (env.vocab_hint_text session.last_vocab user_reply 2) ≠ TransportOutcome.ok200) :
    (∀ m2 : String, env.transport phone m2 ≠ TransportOutcome.ok200 →
      (send_whatsapp_message env phone m2 s).1 = Except.ok false) ∧
    (handle_vocab_reply env phone user_reply s).2.1.users phone =
      some { u with current_vocab_number := u.current_vocab_number + 1 } ∧
    ∃ rest, (handle_vocab_reply env phone user_reply s).2.2 =
      Event.advanced phone Track.vocab :: Event.deleted phone Track.vocab ::
      Event.sent phone (env.vocab_hint_text session.last_vocab user_reply 2) :: rest := by
  refine ⟨?_, ?_, ?_⟩
  · intro m2 hm2
    rcases ht : env.transport phone m2 with _ | _ | _
    · exact absurd ht hm2
    · simp [send_whatsapp_message, ht, transportSuccess]
    · simp [send_whatsapp_message, ht, transportSuccess]
  · unfold handle_vocab_reply
    simp [M.bind, M.pure, bind, pure, instMonadM, getVocabSession, hsess,
      evaluate_answer, hwrong, hatt, give_vocab_hint_or_explanation,
      advance_vocab_index, husers, deleteVocabSession, send_whatsapp_message,
      start_vocab_users, upd]
  · unfold handle_vocab_reply
    simp [M.bind, M.pure, bind, pure, instMonadM, getVocabSession, hsess,
      evaluate_answer, hwrong, hatt, give_vocab_hint_or_explanation,
      advance_vocab_index, husers, deleteVocabSession, send_whatsapp_message]

def envFailSend : Env :=
  { envW with
    llm_correct_reply := fun _ _ => "\"is_correct\": false",
    transport := fun _ _ => TransportOutcome.raiseExc }

def sysA2 : Sys :=
  { sysW with vocab_sessions := fun p =>
      if p = 1 then some { attempt := 2, last_vocab := vrowW } else none }

theorem notifier_failure_is_boolean_and_progress_committed_witness :
    (send_whatsapp_message envFailSend 1 "hello" sysA2).1 = Except.ok false ∧
    (handle_vocab_reply envFailSend 1 "wrong" sysA2).2.1.users 1 =
      some { userW with current_vocab_number := userW.current_vocab_number + 1 } ∧
    ∃ rest, (handle_vocab_reply envFailSend 1 "wrong" sysA2).2.2 =
      Event.advanced 1 Track.vocab :: Event.deleted 1 Track.vocab ::
      Event.sent 1 (envFailSend.vocab_hint_text vrowW "wrong" 2) :: rest := by
  obtain ⟨h1, h2, h3⟩ :=
    notifier_failure_is_boolean_and_progress_committed envFailSend 1 "wrong" sysA2
      userW { attempt := 2, last_vocab := vrowW } rfl rfl (by decide) (by rfl)
      (by decide)
  exact ⟨h1 "hello" (by decide), h2, h3⟩

/-- C10: `send_whatsapp_message` records the outgoing text as the
last-sent message of the student before attempting delivery, for every transport outcome
(success, failure status, or raised exception); and the default dispatcher
fallback classifies the next message of the student against exactly that recorded
prompt (`last_sent_messages.get(phone, "")`), routing into the vocab reply
handler when the judge calls it an answer attempt. -/
theorem last_sent_recorded_and_used_as_prompt
    (env : Env) (phone : Nat) (message raw : String) (s : Sys) (u : UserRec)
    (husers : s.users phone = some u)
    (h1 : pyContains (pyLower (pyStrip raw)) "start" = false)
    (h2 : pyContains (pyLower (pyStrip raw)) "vocab" = false)
    (h3 : pyContains (pyLower (pyStrip raw)) "reading" = false)
    (h4 : pyContains (pyLower (pyStrip raw)) "warm up" = false)
    (hopen : s.open_reading_sessions phone = none)
    (hclosed : s.reading_sessions phone = none) :
    (send_whatsapp_message env phone message s).2.1.last_sent_messages phone =
      some message ∧
    receive_message env phone raw s =
      vocab_default_flow env phone (pyLower (pyStrip raw)) s ∧
    (env.is_student_answering_question (pyLower (pyStrip raw))
        ((s.last_sent_messages phone).getD "") = true →
      receive_message env phone raw s =
        handle_vocab_reply env phone (pyLower (pyStrip raw)) s) := by
  refine ⟨by simp [send_whatsapp_message, upd], ?_, ?_⟩
  · unfold receive_message
    simp [M.bind, M.pure, bind, pure, instMonadM, get_student_name_by_phone,
      husers, h1, h2, h3, h4, getOpenSession, hopen, getReadingSession, hclosed]
  · intro hq
    unfold receive_message vocab_default_flow
    simp [M.bind, M.pure, bind, pure, instMonadM, get_student_name_by_phone,
      husers, h1, h2, h3, h4, getOpenSession, hopen, getReadingSession, hclosed,
      getLastSentOrEmpty, hq]

def sysNoSess : Sys :=
  { sysW with
    reading_sessions := fun _ => none,
    open_reading_sessions := fun _ => none,
    last_sent_messages := fun p => if p = 1 then some "prev" else none }

theorem last_sent_recorded_and_used_as_prompt_witness :
    (send_whatsapp_message envW 1 "next question" sysNoSess).2.1.last_sent_messages 1 =
      some "next question" ∧
    receive_message envW 1 "hi" sysNoSess =
      vocab_default_flow envW 1 (pyLower (pyStrip "hi")) sysNoSess ∧
    receive_message envW 1 "hi" sysNoSess =
      handle_vocab_reply envW 1 (pyLower (pyStrip "hi")) sysNoSess := by
  obtain ⟨h1, h2, h3⟩ :=
    last_sent_recorded_and_used_as_prompt envW 1 "next question" "hi" sysNoSess
      userW rfl (by decide) (by decide) (by decide) (by decide) rfl rfl
  exact ⟨h1, h2, h3 (by decide)⟩

def envBoth : Env :=
  { envW with llm_correct_reply := fun _ _ =>
      "\"is_correct\": true and \"is_correct\": false" }

/-- C8 counterexample: an oracle reply containing both markers contains the
`"is_correct": false` marker, yet the classifier returns `true` (the true
marker is checked first) — refuting that it returns false exactly when the
reply contains the false marker. -/
theorem evaluate_answer_both_markers_returns_true :
    pyContains (pyLower (envBoth.llm_correct_reply "u" "c"))
      "\"is_correct\": false" = true ∧
    (evaluate_answer envBoth "u" "c" sysW).1 = Except.ok true := by
  exact ⟨by decide, by rfl⟩

/-- C8 (amended): the correctness classifier checks the true marker first:
it returns true iff the oracle reply contains `"is_correct": true`
case-insensitively; it returns false iff the reply contains the false marker
but not the true marker; and it raises a classification error iff neither
marker occurs — it never substitutes a default verdict. -/
theorem evaluate_answer_marker_precedence
    (env : Env) (ua ca : String) (s : Sys) :
    (pyContains (pyLower (env.llm_correct_reply ua ca)) "\"is_correct\": true" = true →
      evaluate_answer env ua ca s = (Except.ok true, s, [])) ∧
    (pyContains (pyLower (env.llm_correct_reply ua ca)) "\"is_correct\": true" = false →
     pyContains (pyLower (env.llm_correct_reply ua ca)) "\"is_correct\": false" = true →
      evaluate_answer env ua ca s = (Except.ok false, s, [])) ∧
    (pyContains (pyLower (env.llm_correct_reply ua ca)) "\"is_correct\": true" = false →
     pyContains (pyLower (env.llm_correct_reply ua ca)) "\"is_correct\": false" = false →
      evaluate_answer env ua ca s =
        (Except.error ("Unexpected LLM response: " ++ env.llm_correct_reply ua ca),
          s, [])) := by
  refine ⟨?_, ?_, ?_⟩
  · intro ht
    simp [evaluate_answer, parse_is_correct_reply, ht]
  · intro ht hf
    simp [evaluate_answer, parse_is_correct_reply, ht, hf]
  · intro ht hf
    simp [evaluate_answer, parse_is_correct_reply, ht, hf]

def envGibberish : Env :=
  { envW with llm_correct_reply := fun _ _ => "no verdict" }

theorem evaluate_answer_marker_precedence_witness :
    evaluate_answer envW "u" "c" sysW = (Except.ok true, sysW, []) ∧
    evaluate_answer envFailSend "u" "c" sysW = (Except.ok false, sysW, []) ∧
    evaluate_answer envGibberish "u" "c" sysW =
      (Except.error ("Unexpected LLM response: " ++
        envGibberish.llm_correct_reply "u" "c"), sysW, []) := by
  exact ⟨(evaluate_answer_marker_precedence envW "u" "c" sysW).1 (by decide),
    (evaluate_answer_marker_precedence envFailSend "u" "c" sysW).2.1
      (by decide) (by decide),
    (evaluate_answer_marker_precedence envGibberish "u" "c" sysW).2.2
      (by decide) (by decide)⟩

def userDone : UserRec :=
  { eng_name := "Amy", day_of_training := 1, current_question_number := 3,
    current_vocab_number := 1, current_open_question_number := 2 }

def sysDone : Sys :=
  { users := fun p => if p = 1 then some userDone else none,
    vocab_sessions := fun _ => none,
    reading_sessions := fun _ => none,
    open_reading_sessions := fun _ => none,
    last_sent_messages := fun _ => none }

/-- C3 counterexample: starting the closed-reading track when no question
remains for the day of the student raises a lookup error to the caller, creates
no session, and sends no notification at all — refuting that every track
sends a completion notification and lets no exception propagate. -/
theorem start_reading_exhausted_raises :
    start_reading_session envW 1 "" sysDone =
      (Except.error "Cannot find question", sysDone, []) := by rfl

/-- C3 (amended): with no remaining content item for the day of the student, the
vocabulary track start creates no session, raises nothing, and sends exactly
one completion notification; the closed-reading and open-reading starts also
create no session but send nothing and propagate a content-lookup error to
the caller instead. -/
theorem start_with_no_content
    (env : Env) (phone : Nat) (s : Sys) (u : UserRec)
    (husers : s.users phone = some u) :
    ((env.vocab_rows.filter
        (fun v => v.Day == u.day_of_training))[u.current_vocab_number]? = none →
      start_vocab_session env phone s =
        (Except.ok (),
          { s with last_sent_messages := upd s.last_sent_messages phone (some vocabDoneMsg) },
          [Event.sent phone vocabDoneMsg])) ∧
    (env.closed_rows.find? (fun r => r.day_of_training == u.day_of_training &&
        r.question_id == u.current_question_number) = none →
      ∃ e, start_reading_session env phone "" s = (Except.error e, s, [])) ∧
    (env.open_rows.find? (fun r => r.day_of_training == u.day_of_training &&
        r.question_id == u.current_open_question_number) = none →
      start_open_reading_session env phone s =
        (Except.error "Cannot find open-ended question", s, [])) := by
  refine ⟨?_, ?_, ?_⟩
  · intro hnone
    unfold start_vocab_session get_current_vocab_row
    simp [M.bind, M.pure, bind, pure, instMonadM, husers, hnone,
      send_whatsapp_message]
  · intro hq
    unfold start_reading_session get_passage get_current_question
    rcases hp : env.closed_rows.find?
        (fun r => r.day_of_training == u.day_of_training) with _ | prow
    · exact ⟨"No passage found for day",
        by simp [M.bind, bind, instMonadM, husers, hp]⟩
    · exact ⟨"Cannot find question",
        by simp [M.bind, bind, instMonadM, husers, hp, hq]⟩
  · intro hq
    unfold start_open_reading_session get_open_question
    simp [M.bind, bind, instMonadM, husers, hq]

theorem start_with_no_content_witness :
    start_vocab_session envW 1 sysDone =
      (Except.ok (),
        { sysDone with last_sent_messages := upd sysDone.last_sent_messages 1 (some vocabDoneMsg) },
        [Event.sent 1 vocabDoneMsg]) ∧
    (∃ e, start_reading_session envW 1 "" sysDone = (Except.error e, sysDone, [])) ∧
    start_open_reading_session envW 1 sysDone =
      (Except.error "Cannot find open-ended question", sysDone, []) := by
  obtain ⟨h1, h2, h3⟩ := start_with_no_content envW 1 sysDone userDone rfl
  exact ⟨h1 (by rfl), h2 (by rfl), h3 (by rfl)⟩

/-- C1: for an inbound message whose normalized text contains no track-start
trigger, routing follows the fixed precedence: an active open-reading
session receives the message (the closed-reading handler is never invoked,
even if a closed-reading session also exists, since the run equals the
run of the open-reading handler); else an active closed-reading session receives
it; else the message falls through to the vocabulary default flow
(answer-attempt check, then relevance check, then off-topic redirect). -/
theorem dispatcher_precedence
    (env : Env) (phone : Nat) (raw : String) (s : Sys) (u : UserRec)
    (husers : s.users phone = some u)
    (h1 : pyContains (pyLower (pyStrip raw)) "start" = false)
    (h2 : pyContains (pyLower (pyStrip raw)) "vocab" = false)
    (h3 : pyContains (pyLower (pyStrip raw)) "reading" = false)
    (h4 : pyContains (pyLower (pyStrip raw)) "warm up" = false) :
    ((s.open_reading_sessions phone).isSome = true →
      receive_message env phone raw s =
        handle_open_reading_reply env phone (pyLower (pyStrip raw)) s) ∧
    (s.open_reading_sessions phone = none →
     (s.reading_sessions phone).isSome = true →
      receive_message env phone raw s =
        handle_reading_reply env phone (pyLower (pyStrip raw)) s) ∧
    (s.open_reading_sessions phone = none → s.reading_sessions phone = none →
      receive_message env phone raw s =
        vocab_default_flow env phone (pyLower (pyStrip raw)) s) := by
  refine ⟨?_, ?_, ?_⟩
  · intro hopen
    unfold receive_message
    simp [M.bind, M.pure, bind, pure, instMonadM, get_student_name_by_phone,
      husers, h1, h2, h3, h4, getOpenSession, hopen]
  · intro hopen hclosed
    unfold receive_message
    simp [M.bind, M.pure, bind, pure, instMonadM, get_student_name_by_phone,
      husers, h1, h2, h3, h4, getOpenSession, hopen, getReadingSession, hclosed]
  · intro hopen hclosed
    unfold receive_message
    simp [M.bind, M.pure, bind, pure, instMonadM, get_student_name_by_phone,
      husers, h1, h2, h3, h4, getOpenSession, hopen, getReadingSession, hclosed]

def sysNoOpen : Sys := { sysW with open_reading_sessions := fun _ => none }

theorem dispatcher_precedence_witness :
    receive_message envW 1 "my answer" sysW =
      handle_open_reading_reply envW 1 (pyLower (pyStrip "my answer")) sysW ∧
    receive_message envW 1 "my answer" sysNoOpen =
      handle_reading_reply envW 1 (pyLower (pyStrip "my answer")) sysNoOpen ∧
    receive_message envW 1 "my answer" sysNoSess =
      vocab_default_flow envW 1 (pyLower (pyStrip "my answer")) sysNoSess := by
  exact ⟨(dispatcher_precedence envW 1 "my answer" sysW userW rfl
      (by decide) (by decide) (by decide) (by decide)).1 rfl,
    (dispatcher_precedence envW 1 "my answer" sysNoOpen userW rfl
      (by decide) (by decide) (by decide) (by decide)).2.1 rfl rfl,
    (dispatcher_precedence envW 1 "my answer" sysNoSess userW rfl
      (by decide) (by decide) (by decide) (by decide)).2.2 rfl rfl⟩

/-- C9: command detection runs before any session routing and uses
case-insensitive substring containment, checked in the fixed order start,
vocab, reading, warm up — so any inbound message merely containing one of
these substrings triggers the corresponding greeting or track (re)start and
never reaches the reply handler of an active session, whatever sessions exist. -/
theorem command_triggers_preempt_sessions
    (env : Env) (phone : Nat) (raw : String) (s : Sys) (u : UserRec)
    (husers : s.users phone = some u) :
    (pyContains (pyLower (pyStrip raw)) "start" = true →
      receive_message env phone raw s =
        (Except.ok (),
          { s with last_sent_messages := upd s.last_sent_messages phone (some (env.greet_student u.eng_name)) },
          [Event.sent phone (env.greet_student u.eng_name)])) ∧
    (pyContains (pyLower (pyStrip raw)) "start" = false →
     pyContains (pyLower (pyStrip raw)) "vocab" = true →
      receive_message env phone raw s = start_vocab_session env phone s) ∧
    (pyContains (pyLower (pyStrip raw)) "start" = false →
     pyContains (pyLower (pyStrip raw)) "vocab" = false →
     pyContains (pyLower (pyStrip raw)) "reading" = true →
      receive_message env phone raw s = start_reading_session env phone "" s) ∧
    (pyContains (pyLower (pyStrip raw)) "start" = false →
     pyContains (pyLower (pyStrip raw)) "vocab" = false →
     pyContains (pyLower (pyStrip raw)) "reading" = false →
     pyContains (pyLower (pyStrip raw)) "warm up" = true →
      receive_message env phone raw s = start_open_reading_session env phone s) := by
  refine ⟨?_, ?_, ?_, ?_⟩
  · intro hs
    unfold receive_message
    simp [M.bind, M.pure, bind, pure, instMonadM, get_student_name_by_phone,
      husers, hs, send_whatsapp_message]
  · intro hs hv
    unfold receive_message
    simp [M.bind, M.pure, bind, pure, instMonadM, get_student_name_by_phone,
      husers, hs, hv]
  · intro hs hv hr
    unfold receive_message
    simp [M.bind, M.pure, bind, pure, instMonadM, get_student_name_by_phone,
      husers, hs, hv, hr]
  · intro hs hv hr hw
    unfold receive_message
    simp [M.bind, M.pure, bind, pure, instMonadM, get_student_name_by_phone,
      husers, hs, hv, hr, hw]

theorem command_triggers_preempt_sessions_witness :
    receive_message envW 1 "PLEASE START" sysW =
      (Except.ok (),
        { sysW with last_sent_messages := upd sysW.last_sent_messages 1 (some (envW.greet_student userW.eng_name)) },
        [Event.sent 1 (envW.greet_student userW.eng_name)]) ∧
    receive_message envW 1 "I think READING is fun" sysW =
      start_reading_session envW 1 "" sysW := by
  exact ⟨(command_triggers_preempt_sessions envW 1 "PLEASE START" sysW userW
      rfl).1 (by decide),
    (command_triggers_preempt_sessions envW 1 "I think READING is fun" sysW
      userW rfl).2.2.1 (by decide) (by decide) (by decide)⟩

def envNotAns : Env :=
  { envW with is_student_answering_question := fun _ _ => false }

/-- C6: with a closed-reading session in normal mode, a message judged not
to be an answer attempt but relevant to learning results in exactly one
sent message (the direct answer) and in a final state identical to the
initial one except for the last-sent record: in particular the session
entry — attempt, question, passage, mode and last recorded answer — is
unchanged and no durable cursor is advanced. -/
theorem closed_relevant_nonanswer_leaves_session
    (env : Env) (phone : Nat) (reply : String) (s : Sys) (u : UserRec)
    (rs : ReadingSession) (crow : ClosedRow)
    (husers : s.users phone = some u)
    (hsess : s.reading_sessions phone = some rs)
    (hmode : rs.mode ≠ "reflection")
    (hrow : env.closed_rows.find? (fun r => r.day_of_training == u.day_of_training &&
        r.question_id == u.current_question_number) = some crow)
    (hnoans : env.is_student_answering_question reply rs.question = false)
    (hrel : env.is_reply_relevant_to_learning reply rs.question = true) :
    handle_reading_reply env phone reply s =
      (Except.ok (),
        { s with last_sent_messages := upd s.last_sent_messages phone (some (env.generate_answer_to_student_question reply)) },
        [Event.sent phone (env.generate_answer_to_student_question reply)]) := by
  unfold handle_reading_reply
  simp [M.bind, M.pure, bind, pure, instMonadM, getReadingSession, hsess,
    beq_iff_eq, hmode, get_current_answer, husers, hrow, hnoans, hrel,
    send_whatsapp_message]

theorem closed_relevant_nonanswer_leaves_session_witness :
    handle_reading_reply envNotAns 1 "what does this word mean" sysW =
      (Except.ok (),
        { sysW with last_sent_messages := upd sysW.last_sent_messages 1 (some (envNotAns.generate_answer_to_student_question "what does this word mean")) },
        [Event.sent 1 (envNotAns.generate_answer_to_student_question
          "what does this word mean")]) := by
  exact closed_relevant_nonanswer_leaves_session envNotAns 1
    "what does this word mean" sysW userW
    { passage := "p1", question := "q1", attempt := 1, mode := "",
      last_user_answer := "" }
    crowW rfl rfl (by decide) rfl rfl rfl

def sysA3 : Sys :=
  { sysW with vocab_sessions := fun p =>
      if p = 1 then some { attempt := 3, last_vocab := vrowW } else none }

/-- C4 counterexample: running the vocabulary reply handler on a session
whose attempt counter is 3 (outside {1,2}) raises nothing: the run returns
normally and proceeds along the attempt-2 explanation path, advancing the
durable cursor — refuting that the system signals a fatal invalid-state
error in this situation. -/
theorem vocab_attempt3_no_error :
    (handle_vocab_reply envFailSend 1 "x" sysA3).1 = Except.ok () ∧
    (handle_vocab_reply envFailSend 1 "x" sysA3).2.2.filter isAdvancedEv =
      [Event.advanced 1 Track.vocab] := by
  exact ⟨by rfl, by rfl⟩

/-- C4 (amended): the fatal invalid-state check lives in
`give_vocab_hint_or_explanation`, which raises exactly when its attempt
argument lies outside {1,2}; but the vocabulary reply handler only ever
passes the literal attempts 1 and 2, so a session whose attempt counter is
3 is processed without error along the attempt-2 explanation path. -/
theorem vocab_attempt_contract
    (env : Env) (phone : Nat) (ua : String) (row : VocabRow) (a : Nat) (s : Sys) :
    (a ≠ 1 → a ≠ 2 →
      give_vocab_hint_or_explanation env row ua a s =
        (Except.error "Attempt must be either 1 or 2.", s, [])) ∧
    ((a = 1 ∨ a = 2) →
      give_vocab_hint_or_explanation env row ua a s =
        (Except.ok (env.vocab_hint_text row ua a), s, [])) ∧
    (∀ u : UserRec, ∀ session : VocabSession,
      s.users phone = some u → s.vocab_sessions phone = some session →
      session.attempt = 3 →
      parse_is_correct_reply
        (env.llm_correct_reply ua session.last_vocab.ChineseExplaination) =
        Except.ok false →
      (handle_vocab_reply env phone ua s).1 = Except.ok () ∧
      ∃ rest, (handle_vocab_reply env phone ua s).2.2 =
        Event.advanced phone Track.vocab :: Event.deleted phone Track.vocab ::
        Event.sent phone (env.vocab_hint_text session.last_vocab ua 2) :: rest) := by
  refine ⟨?_, ?_, ?_⟩
  · intro ha1 ha2
    simp [give_vocab_hint_or_explanation, ha1, ha2]
  · intro ha
    simp [give_vocab_hint_or_explanation, ha]
  · intro u session hu hsess hatt hwrong
    constructor
    · unfold handle_vocab_reply
      simp [M.bind, M.pure, bind, pure, instMonadM, getVocabSession, hsess,
        evaluate_answer, hwrong, hatt, give_vocab_hint_or_explanation,
        advance_vocab_index, hu, deleteVocabSession, send_whatsapp_message]
      refine start_vocab_ok env phone _ ?_
      simp [upd]
    · unfold handle_vocab_reply
      simp [M.bind, M.pure, bind, pure, instMonadM, getVocabSession, hsess,
        evaluate_answer, hwrong, hatt, give_vocab_hint_or_explanation,
        advance_vocab_index, hu, deleteVocabSession, send_whatsapp_message]

theorem vocab_attempt_contract_witness :
    give_vocab_hint_or_explanation envW vrowW "x" 5 sysW =
      (Except.error "Attempt must be either 1 or 2.", sysW, []) ∧
    give_vocab_hint_or_explanation envW vrowW "x" 1 sysW =
      (Except.ok (envW.vocab_hint_text vrowW "x" 1), sysW, []) ∧
    ((handle_vocab_reply envFailSend 1 "x" sysA3).1 = Except.ok () ∧
     ∃ rest, (handle_vocab_reply envFailSend 1 "x" sysA3).2.2 =
       Event.advanced 1 Track.vocab :: Event.deleted 1 Track.vocab ::
       Event.sent 1 (envFailSend.vocab_hint_text vrowW "x" 2) :: rest) := by
  exact ⟨(vocab_attempt_contract envW 1 "x" vrowW 5 sysW).1 (by decide) (by decide),
    (vocab_attempt_contract envW 1 "x" vrowW 1 sysW).2.1 (Or.inl rfl),
    (vocab_attempt_contract envFailSend 1 "x" vrowW 3 sysA3).2.2 userW
      { attempt := 3, last_vocab := vrowW } rfl rfl rfl (by rfl)⟩

/-- Shape of a completion run: its trace advances exactly one durable
cursor, namely the one of the given track, once; it contains a deletion of that
(student, track) session entry; and any session creation for that
(student, track) occurs only after the deletion. -/
def CompletionShape (phone : Nat) (t : Track)
    (out : Except String Unit × Sys × List Event) : Prop :=
  out.2.2.filter isAdvancedEv = [Event.advanced phone t] ∧
  Event.deleted phone t ∈ out.2.2 ∧
  delBeforeCreate phone t out.2.2 = true

/-- C2: every completion event — a correct vocabulary answer, a second
incorrect vocabulary attempt, a handled closed-reading reflection, a third
incorrect closed-reading attempt, and a relevant open-reading reply —
advances exactly one durable cursor (the one of its track) by exactly 1,
deletes the (student, track) session entry, and performs the deletion
before the auto-chained start creates any new session for that track. -/
theorem completion_semantics
    (env : Env) (phone : Nat) (reply : String) (s : Sys) (u : UserRec)
    (husers : s.users phone = some u) :
    (∀ vs : VocabSession, s.vocab_sessions phone = some vs →
      parse_is_correct_reply
        (env.llm_correct_reply reply vs.last_vocab.ChineseExplaination) =
        Except.ok true →
      CompletionShape phone Track.vocab (handle_vocab_reply env phone reply s) ∧
      (handle_vocab_reply env phone reply s).2.1.users phone =
        some { u with current_vocab_number := u.current_vocab_number + 1 }) ∧
    (∀ vs : VocabSession, s.vocab_sessions phone = some vs → vs.attempt ≠ 1 →
      parse_is_correct_reply
        (env.llm_correct_reply reply vs.last_vocab.ChineseExplaination) =
        Except.ok false →
      CompletionShape phone Track.vocab (handle_vocab_reply env phone reply s) ∧
      (handle_vocab_reply env phone reply s).2.1.users phone =
        some { u with current_vocab_number := u.current_vocab_number + 1 }) ∧
    (∀ rs : ReadingSession, s.reading_sessions phone = some rs →
      rs.mode = "reflection" →
      ∀ crow : ClosedRow,
      env.closed_rows.find? (fun r => r.day_of_training == u.day_of_training &&
        r.question_id == u.current_question_number) = some crow →
      CompletionShape phone Track.closed (handle_reading_reply env phone reply s) ∧
      (handle_reading_reply env phone reply s).2.1.users phone =
        some { u with current_question_number := u.current_question_number + 1 }) ∧
    (∀ rs : ReadingSession, s.reading_sessions phone = some rs →
      rs.mode ≠ "reflection" → rs.attempt = 3 →
      env.is_student_answering_question reply rs.question = true →
      ∀ crow : ClosedRow,
      env.closed_rows.find? (fun r => r.day_of_training == u.day_of_training &&
        r.question_id == u.current_question_number) = some crow →
      parse_is_correct_reply (env.llm_correct_reply reply crow.answer_text) =
        Except.ok false →
      CompletionShape phone Track.closed (handle_reading_reply env phone reply s) ∧
      (handle_reading_reply env phone reply s).2.1.users phone =
        some { u with current_question_number := u.current_question_number + 1 }) ∧
    (∀ os : OpenSession, s.open_reading_sessions phone = some os →
      env.is_reply_relevant_to_learning reply os.question = true →
      ∀ orow : OpenRow,
      env.open_rows.find? (fun r => r.day_of_training == u.day_of_training &&
        r.question_id == u.current_open_question_number) = some orow →
      CompletionShape phone Track.openT
        (handle_open_reading_reply env phone reply s) ∧
      (handle_open_reading_reply env phone reply s).2.1.users phone =
        some { u with current_open_question_number :=
          u.current_open_question_number + 1 }) := by
  refine ⟨?_, ?_, ?_, ?_, ?_⟩
  · intro vs hsess hright
    refine ⟨⟨?_, ?_, ?_⟩, ?_⟩ <;>
    · unfold handle_vocab_reply
      simp [CompletionShape, M.bind, M.pure, bind, pure, instMonadM,
        getVocabSession, hsess, evaluate_answer, hright,
        advance_vocab_index, husers, deleteVocabSession,
        send_whatsapp_message, start_vocab_users, start_vocab_advfree,
        isAdvancedEv, delBeforeCreate, upd]
  · intro vs hsess hatt hwrong
    refine ⟨⟨?_, ?_, ?_⟩, ?_⟩ <;>
    · unfold handle_vocab_reply
      simp [CompletionShape, M.bind, M.pure, bind, pure, instMonadM,
        getVocabSession, hsess, evaluate_answer, hwrong, hatt,
        give_vocab_hint_or_explanation, advance_vocab_index, husers,
        deleteVocabSession, send_whatsapp_message, start_vocab_users,
        start_vocab_advfree, isAdvancedEv, delBeforeCreate, upd]
  · intro rs hsess hmode crow hrow
    refine ⟨⟨?_, ?_, ?_⟩, ?_⟩ <;>
    · unfold handle_reading_reply
      simp [CompletionShape, M.bind, M.pure, bind, pure, instMonadM,
        getReadingSession, hsess, beq_iff_eq, hmode, get_current_answer,
        husers, hrow, advance_question_progress, deleteReadingSession,
        send_whatsapp_message, start_reading_users, start_reading_advfree,
        isAdvancedEv, delBeforeCreate, upd]
  · intro rs hsess hmode hatt hans crow hrow hwrong
    refine ⟨⟨?_, ?_, ?_⟩, ?_⟩ <;>
    · unfold handle_reading_reply
      simp [CompletionShape, M.bind, M.pure, bind, pure, instMonadM,
        getReadingSession, hsess, beq_iff_eq, hmode, get_current_answer,
        husers, hrow, hans, evaluate_answer, hwrong, hatt,
        give_hint_or_explanation, advance_question_progress,
        deleteReadingSession, send_whatsapp_message, start_reading_users,
        start_reading_advfree, isAdvancedEv, delBeforeCreate, upd]
  · intro os hsess hrel orow horow
    refine ⟨⟨?_, ?_, ?_⟩, ?_⟩ <;>
    · unfold handle_open_reading_reply
      simp [CompletionShape, M.bind, M.pure, bind, pure, instMonadM,
        getOpenSession, hsess, hrel, get_open_question_objective,
        get_open_question_ans, husers, horow,
        advance_open_question_progress, deleteOpenSession,
        send_whatsapp_message, start_open_users, start_open_advfree,
        isAdvancedEv, delBeforeCreate, upd]

def rsReflW : ReadingSession :=
  { passage := "p1", question := "q1", attempt := 1, mode := "reflection",
    last_user_answer := "prev" }

def sysRefl : Sys :=
  { sysW with reading_sessions := fun p => if p = 1 then some rsReflW else none }

def rsA3W : ReadingSession :=
  { passage := "p1", question := "q1", attempt := 3, mode := "",
    last_user_answer := "" }

def sysR3 : Sys :=
  { sysW with reading_sessions := fun p => if p = 1 then some rsA3W else none }

theorem completion_semantics_witness :
    (CompletionShape 1 Track.vocab (handle_vocab_reply envW 1 "mean" sysW) ∧
      (handle_vocab_reply envW 1 "mean" sysW).2.1.users 1 =
        some { userW with current_vocab_number := userW.current_vocab_number + 1 }) ∧
    (CompletionShape 1 Track.vocab (handle_vocab_reply envFailSend 1 "x" sysA2) ∧
      (handle_vocab_reply envFailSend 1 "x" sysA2).2.1.users 1 =
        some { userW with current_vocab_number := userW.current_vocab_number + 1 }) ∧
    (CompletionShape 1 Track.closed (handle_reading_reply envW 1 "because" sysRefl) ∧
      (handle_reading_reply envW 1 "because" sysRefl).2.1.users 1 =
        some { userW with current_question_number := userW.current_question_number + 1 }) ∧
    (CompletionShape 1 Track.closed (handle_reading_reply envFailSend 1 "wrong" sysR3) ∧
      (handle_reading_reply envFailSend 1 "wrong" sysR3).2.1.users 1 =
        some { userW with current_question_number := userW.current_question_number + 1 }) ∧
    (CompletionShape 1 Track.openT (handle_open_reading_reply envW 1 "i see" sysW) ∧
      (handle_open_reading_reply envW 1 "i see" sysW).2.1.users 1 =
        some { userW with current_open_question_number := userW.current_open_question_number + 1 }) := by
  refine ⟨?_, ?_, ?_, ?_, ?_⟩
  · exact (completion_semantics envW 1 "mean" sysW userW rfl).1
      { attempt := 1, last_vocab := vrowW } rfl (by rfl)
  · exact (completion_semantics envFailSend 1 "x" sysA2 userW rfl).2.1
      { attempt := 2, last_vocab := vrowW } rfl (by decide) (by rfl)
  · exact (completion_semantics envW 1 "because" sysRefl userW rfl).2.2.1
      rsReflW rfl rfl crowW rfl
  · exact (completion_semantics envFailSend 1 "wrong" sysR3 userW rfl).2.2.2.1
      rsA3W rfl (by decide) rfl rfl crowW rfl (by rfl)
  · exact (completion_semantics envW 1 "i see" sysW userW rfl).2.2.2.2
      { question := "oq1" } rfl rfl orowW rfl

/-! ## The attempt-counter invariant -/

/-- While a vocabulary session exists its attempt counter is 1 or 2; while a
closed-reading session exists in normal (non-reflection) mode its attempt
counter is 1, 2 or 3. -/
def SessInv (s : Sys) : Prop :=
  (∀ p vs, s.vocab_sessions p = some vs → vs.attempt = 1 ∨ vs.attempt = 2) ∧
  (∀ p rs, s.reading_sessions p = some rs → rs.mode ≠ "reflection" →
    rs.attempt = 1 ∨ rs.attempt = 2 ∨ rs.attempt = 3)

theorem sessInv_congr {s : Sys} (h : SessInv s) (t : Sys)
    (h1 : t.vocab_sessions = s.vocab_sessions)
    (h2 : t.reading_sessions = s.reading_sessions) : SessInv t := by
  constructor
  · intro p vs hp
    rw [h1] at hp
    exact h.1 p vs hp
  · intro p rs hp hm
    rw [h2] at hp
    exact h.2 p rs hp hm

theorem sessInv_vocab_upd {s : Sys} (h : SessInv s) {phone : Nat}
    {vOpt : Option VocabSession}
    (hv : ∀ vs, vOpt = some vs → vs.attempt = 1 ∨ vs.attempt = 2)
    (t : Sys) (h1 : t.vocab_sessions = upd s.vocab_sessions phone vOpt)
    (h2 : t.reading_sessions = s.reading_sessions) : SessInv t := by
  constructor
  · intro p vs hp
    rw [h1] at hp
    unfold upd at hp
    by_cases hpp : p = phone
    · rw [if_pos hpp] at hp
      exact hv vs hp
    · rw [if_neg hpp] at hp
      exact h.1 p vs hp
  · intro p rs hp hm
    rw [h2] at hp
    exact h.2 p rs hp hm

theorem sessInv_reading_upd {s : Sys} (h : SessInv s) {phone : Nat}
    {rOpt : Option ReadingSession}
    (hr : ∀ rs, rOpt = some rs → rs.mode ≠ "reflection" →
      rs.attempt = 1 ∨ rs.attempt = 2 ∨ rs.attempt = 3)
    (t : Sys) (h1 : t.reading_sessions = upd s.reading_sessions phone rOpt)
    (h2 : t.vocab_sessions = s.vocab_sessions) : SessInv t := by
  constructor
  · intro p vs hp
    rw [h2] at hp
    exact h.1 p vs hp
  · intro p rs hp hm
    rw [h1] at hp
    unfold upd at hp
    by_cases hpp : p = phone
    · rw [if_pos hpp] at hp
      exact hr rs hp hm
    · rw [if_neg hpp] at hp
      exact h.2 p rs hp hm

theorem sessInv_start_vocab (env : Env) (phone : Nat) {s : Sys}
    (h : SessInv s) : SessInv (start_vocab_session env phone s).2.1 := by
  unfold start_vocab_session get_current_vocab_row
  rcases hu : s.users phone with _ | u
  · simp only [M.bind, bind, instMonadM, hu]
    exact h
  · rcases hrow : (env.vocab_rows.filter
        (fun v => v.Day == u.day_of_training))[u.current_vocab_number]? with _ | row
    · simp [M.bind, M.pure, bind, pure, instMonadM, hu, hrow,
        send_whatsapp_message]
      exact sessInv_congr h _ rfl rfl
    · simp [M.bind, M.pure, bind, pure, instMonadM, hu, hrow,
        putVocabSession, send_whatsapp_message]
      refine sessInv_vocab_upd h ?_ _ rfl rfl
      intro vs hvs
      cases hvs
      exact Or.inl rfl

theorem sessInv_start_reading (env : Env) (phone : Nat) (pl : String) {s : Sys}
    (h : SessInv s) : SessInv (start_reading_session env phone pl s).2.1 := by
  unfold start_reading_session get_passage get_current_question
    get_student_name_by_phone
  rcases hu : s.users phone with _ | u
  · simp only [M.bind, bind, instMonadM, hu]
    exact h
  · rcases hp : env.closed_rows.find?
        (fun r => r.day_of_training == u.day_of_training) with _ | prow
    · simp only [M.bind, bind, instMonadM, hu, hp]
      exact h
    · rcases hq : env.closed_rows.find? (fun r =>
          r.day_of_training == u.day_of_training &&
          r.question_id == u.current_question_number) with _ | qrow
      · simp [M.bind, bind, instMonadM, hu, hp, hq]
        exact h
      · simp [M.bind, M.pure, bind, pure, instMonadM, hu, hp, hq,
          putReadingSession, send_whatsapp_message]
        refine sessInv_reading_upd h ?_ _ rfl rfl
        intro rs hrs _hm
        cases hrs
        exact Or.inl rfl

theorem sessInv_start_open (env : Env) (phone : Nat) {s : Sys}
    (h : SessInv s) : SessInv (start_open_reading_session env phone s).2.1 := by
  unfold start_open_reading_session get_open_question
  rcases hu : s.users phone with _ | u
  · simp only [M.bind, bind, instMonadM, hu]
    exact h
  · rcases hq : env.open_rows.find? (fun r =>
        r.day_of_training == u.day_of_training &&
        r.question_id == u.current_open_question_number) with _ | qrow
    · simp only [M.bind, bind, instMonadM, hu, hq]
      exact h
    · simp [M.bind, M.pure, bind, pure, instMonadM, hu, hq,
        putOpenSession, send_whatsapp_message]
      exact sessInv_congr h _ rfl rfl

theorem sessInv_handle_vocab (env : Env) (phone : Nat) (reply : String)
    {s : Sys} (h : SessInv s) :
    SessInv (handle_vocab_reply env phone reply s).2.1 := by
  unfold handle_vocab_reply
  rcases hsess : s.vocab_sessions phone with _ | session
  · simp [M.bind, M.pure, bind, pure, instMonadM, getVocabSession, hsess,
      send_whatsapp_message]
    exact sessInv_congr h _ rfl rfl
  · rcases hev : parse_is_correct_reply
        (env.llm_correct_reply reply session.last_vocab.ChineseExplaination)
        with e | b
    · simp [M.bind, bind, instMonadM, getVocabSession, hsess,
        evaluate_answer, hev]
      exact h
    · rcases b with _ | _
      · by_cases hatt : session.attempt = 1
        · simp [M.bind, M.pure, bind, pure, instMonadM, getVocabSession, hsess,
            evaluate_answer, hev, hatt, give_vocab_hint_or_explanation,
            setVocabSession, send_whatsapp_message]
          refine sessInv_vocab_upd h ?_ _ rfl rfl
          intro vs hvs
          cases hvs
          exact Or.inr rfl
        · rcases hu : s.users phone with _ | u
          · simp [M.bind, M.pure, bind, pure, instMonadM, getVocabSession,
              hsess, evaluate_answer, hev, hatt,
              give_vocab_hint_or_explanation, advance_vocab_index, hu]
            exact h
          · simp [M.bind, M.pure, bind, pure, instMonadM, getVocabSession,
              hsess, evaluate_answer, hev, hatt,
              give_vocab_hint_or_explanation, advance_vocab_index, hu,
              deleteVocabSession, send_whatsapp_message]
            exact sessInv_start_vocab env phone
              (sessInv_vocab_upd h (fun vs hvs => Option.noConfusion hvs)
                _ rfl rfl)
      · rcases hu : s.users phone with _ | u
        · simp [M.bind, M.pure, bind, pure, instMonadM, getVocabSession,
            hsess, evaluate_answer, hev, send_whatsapp_message,
            advance_vocab_index, hu]
          exact sessInv_congr h _ rfl rfl
        · simp [M.bind, M.pure, bind, pure, instMonadM, getVocabSession,
            hsess, evaluate_answer, hev, send_whatsapp_message,
            advance_vocab_index, hu, deleteVocabSession]
          exact sessInv_start_vocab env phone
            (sessInv_vocab_upd h (fun vs hvs => Option.noConfusion hvs)
              _ rfl rfl)

theorem sessInv_handle_reading (env : Env) (phone : Nat) (reply : String)
    {s : Sys} (h : SessInv s) :
    SessInv (handle_reading_reply env phone reply s).2.1 := by
  unfold handle_reading_reply
  rcases hsess : s.reading_sessions phone with _ | session
  · simp [M.bind, M.pure, bind, pure, instMonadM, getReadingSession, hsess,
      send_whatsapp_message]
    exact sessInv_congr h _ rfl rfl
  · rcases hmode : session.mode == "reflection" with _ | _
    · -- normal mode
      rcases hu : s.users phone with _ | u
      · simp [M.bind, bind, instMonadM, getReadingSession, hsess, hmode,
          get_current_answer, hu]
        exact h
      · rcases hrow : env.closed_rows.find? (fun r =>
            r.day_of_training == u.day_of_training &&
            r.question_id == u.current_question_number) with _ | crow
        · simp [M.bind, bind, instMonadM, getReadingSession, hsess, hmode,
            get_current_answer, hu, hrow]
          exact h
        · rcases hans : env.is_student_answering_question reply session.question
              with _ | _
          · rcases hrel : env.is_reply_relevant_to_learning reply session.question
                with _ | _
            · simp [M.bind, M.pure, bind, pure, instMonadM, getReadingSession,
                hsess, hmode, get_current_answer, hu, hrow, hans, hrel,
                send_whatsapp_message]
              exact sessInv_congr h _ rfl rfl
            · simp [M.bind, M.pure, bind, pure, instMonadM, getReadingSession,
                hsess, hmode, get_current_answer, hu, hrow, hans, hrel,
                send_whatsapp_message]
              exact sessInv_congr h _ rfl rfl
          · rcases hev : parse_is_correct_reply
                (env.llm_correct_reply reply crow.answer_text) with e | b
            · simp [M.bind, bind, instMonadM, getReadingSession, hsess, hmode,
                get_current_answer, hu, hrow, hans, evaluate_answer, hev]
              exact h
            · rcases b with _ | _
              · -- incorrect
                have hattMem : session.attempt = 1 ∨ session.attempt = 2 ∨
                    session.attempt = 3 :=
                  h.2 phone session hsess (ne_of_beq_false hmode)
                by_cases hlt : session.attempt < 3
                · have h31a : ¬ session.attempt = 0 := by
                    rcases hattMem with ha | ha | ha <;> omega
                  have h31b : ¬ 3 < session.attempt := by
                    rcases hattMem with ha | ha | ha <;> omega
                  simp [M.bind, M.pure, bind, pure, instMonadM,
                    getReadingSession, hsess, hmode, get_current_answer, hu,
                    hrow, hans, evaluate_answer, hev, hlt,
                    give_hint_or_explanation, h31a, h31b, setReadingSession,
                    send_whatsapp_message]
                  refine sessInv_reading_upd h ?_ _ rfl rfl
                  intro rs hrs _hm
                  cases hrs
                  have : session.attempt = 1 ∨ session.attempt = 2 := by
                    rcases hattMem with h1 | h2 | h3 <;> omega
                  rcases this with h1 | h2
                  · exact Or.inr (Or.inl (by rw [h1]))
                  · exact Or.inr (Or.inr (by rw [h2]))
                · simp [M.bind, M.pure, bind, pure, instMonadM,
                    getReadingSession, hsess, hmode, get_current_answer, hu,
                    hrow, hans, evaluate_answer, hev, hlt,
                    give_hint_or_explanation, send_whatsapp_message,
                    advance_question_progress, deleteReadingSession]
                  exact sessInv_start_reading env phone ""
                    (sessInv_reading_upd h
                      (fun rs hrs => Option.noConfusion hrs) _ rfl rfl)
              · -- correct: switch to reflection mode
                simp [M.bind, M.pure, bind, pure, instMonadM,
                  getReadingSession, hsess, hmode, get_current_answer, hu,
                  hrow, hans, evaluate_answer, hev, send_whatsapp_message,
                  setReadingSession]
                refine sessInv_reading_upd h ?_ _ rfl rfl
                intro rs hrs hm
                cases hrs
                exact absurd rfl hm
    · -- reflection mode
      rcases hu : s.users phone with _ | u
      · simp [M.bind, bind, instMonadM, getReadingSession, hsess, hmode,
          get_current_answer, hu]
        exact h
      · rcases hrow : env.closed_rows.find? (fun r =>
            r.day_of_training == u.day_of_training &&
            r.question_id == u.current_question_number) with _ | crow
        · simp [M.bind, bind, instMonadM, getReadingSession, hsess, hmode,
            get_current_answer, hu, hrow]
          exact h
        · simp [M.bind, M.pure, bind, pure, instMonadM, getReadingSession,
            hsess, hmode, get_current_answer, hu, hrow,
            send_whatsapp_message, advance_question_progress,
            deleteReadingSession]
          exact sessInv_start_reading env phone reply
            (sessInv_reading_upd h (fun rs hrs => Option.noConfusion hrs)
              _ rfl rfl)

theorem sessInv_handle_open (env : Env) (phone : Nat) (reply : String)
    {s : Sys} (h : SessInv s) :
    SessInv (handle_open_reading_reply env phone reply s).2.1 := by
  unfold handle_open_reading_reply
  rcases hsess : s.open_reading_sessions phone with _ | session
  · simp [M.bind, M.pure, bind, pure, instMonadM, getOpenSession, hsess,
      send_whatsapp_message]
    exact sessInv_congr h _ rfl rfl
  · rcases hrel : env.is_reply_relevant_to_learning reply session.question
        with _ | _
    · simp [M.bind, M.pure, bind, pure, instMonadM, getOpenSession, hsess,
        hrel, send_whatsapp_message]
      exact sessInv_congr h _ rfl rfl
    · rcases hu : s.users phone with _ | u
      · simp [M.bind, bind, instMonadM, getOpenSession, hsess, hrel,
          get_open_question_objective, hu]
        exact h
      · rcases hrow : env.open_rows.find? (fun r =>
            r.day_of_training == u.day_of_training &&
            r.question_id == u.current_open_question_number) with _ | orow
        · simp [M.bind, bind, instMonadM, getOpenSession, hsess, hrel,
            get_open_question_objective, get_open_question_ans, hu, hrow]
          exact h
        · simp [M.bind, M.pure, bind, pure, instMonadM, getOpenSession, hsess,
            hrel, get_open_question_objective, get_open_question_ans, hu,
            hrow, send_whatsapp_message, advance_open_question_progress,
            deleteOpenSession]
          exact sessInv_start_open env phone (sessInv_congr h _ rfl rfl)

theorem sessInv_default_flow (env : Env) (phone : Nat) (message : String)
    {s : Sys} (h : SessInv s) :
    SessInv (vocab_default_flow env phone message s).2.1 := by
  unfold vocab_default_flow
  rcases hq : env.is_student_answering_question message
      ((s.last_sent_messages phone).getD "") with _ | _
  · rcases hrel : env.is_reply_relevant_to_learning message
        ((s.last_sent_messages phone).getD "") with _ | _
    · simp [M.bind, M.pure, bind, pure, instMonadM, getLastSentOrEmpty, hq,
        hrel, send_whatsapp_message]
      exact sessInv_congr h _ rfl rfl
    · simp [M.bind, M.pure, bind, pure, instMonadM, getLastSentOrEmpty, hq,
        hrel, send_whatsapp_message]
      exact sessInv_start_vocab env phone (sessInv_congr h _ rfl rfl)
  · simp [M.bind, M.pure, bind, pure, instMonadM, getLastSentOrEmpty, hq]
    exact sessInv_handle_vocab env phone message h

theorem sessInv_receive (env : Env) (phone : Nat) (raw : String)
    {s : Sys} (h : SessInv s) :
    SessInv (receive_message env phone raw s).2.1 := by
  unfold receive_message
  rcases hu : s.users phone with _ | u
  · simp only [M.bind, bind, instMonadM, get_student_name_by_phone, hu]
    exact h
  · rcases h1 : pyContains (pyLower (pyStrip raw)) "start" with _ | _
    · rcases h2 : pyContains (pyLower (pyStrip raw)) "vocab" with _ | _
      · rcases h3 : pyContains (pyLower (pyStrip raw)) "reading" with _ | _
        · rcases h4 : pyContains (pyLower (pyStrip raw)) "warm up" with _ | _
          · rcases hopen : s.open_reading_sessions phone with _ | osess
            · rcases hread : s.reading_sessions phone with _ | rsess
              · simp [M.bind, M.pure, bind, pure, instMonadM,
                  get_student_name_by_phone, hu, h1, h2, h3, h4,
                  getOpenSession, hopen, getReadingSession, hread]
                exact sessInv_default_flow env phone _ h
              · simp [M.bind, M.pure, bind, pure, instMonadM,
                  get_student_name_by_phone, hu, h1, h2, h3, h4,
                  getOpenSession, hopen, getReadingSession, hread]
                exact sessInv_handle_reading env phone _ h
            · simp [M.bind, M.pure, bind, pure, instMonadM,
                get_student_name_by_phone, hu, h1, h2, h3, h4,
                getOpenSession, hopen]
              exact sessInv_handle_open env phone _ h
          · simp [M.bind, M.pure, bind, pure, instMonadM,
              get_student_name_by_phone, hu, h1, h2, h3, h4]
            exact sessInv_start_open env phone h
        · simp [M.bind, M.pure, bind, pure, instMonadM,
            get_student_name_by_phone, hu, h1, h2, h3]
          exact sessInv_start_reading env phone "" h
      · simp [M.bind, M.pure, bind, pure, instMonadM,
          get_student_name_by_phone, hu, h1, h2]
        exact sessInv_start_vocab env phone h
    · simp [M.bind, M.pure, bind, pure, instMonadM, get_student_name_by_phone,
        hu, h1, send_whatsapp_message]
      exact sessInv_congr h _ rfl rfl

/-- C5: the attempt-counter invariant — vocabulary attempt in {1,2} while a
vocab session exists, closed-reading attempt in {1,2,3} while a closed
session in normal mode exists — holds immediately after session creation
(the starts create attempt 1) and is preserved by every session-start,
reply-handling and dispatch step. -/
theorem attempt_counter_invariant
    (env : Env) (phone : Nat) (reply pl raw : String) (s : Sys)
    (h : SessInv s) :
    SessInv (start_vocab_session env phone s).2.1 ∧
    SessInv (start_reading_session env phone pl s).2.1 ∧
    SessInv (start_open_reading_session env phone s).2.1 ∧
    SessInv (handle_vocab_reply env phone reply s).2.1 ∧
    SessInv (handle_reading_reply env phone reply s).2.1 ∧
    SessInv (handle_open_reading_reply env phone reply s).2.1 ∧
    SessInv (vocab_default_flow env phone reply s).2.1 ∧
    SessInv (receive_message env phone raw s).2.1 :=
  ⟨sessInv_start_vocab env phone h, sessInv_start_reading env phone pl h,
    sessInv_start_open env phone h, sessInv_handle_vocab env phone reply h,
    sessInv_handle_reading env phone reply h,
    sessInv_handle_open env phone reply h,
    sessInv_default_flow env phone reply h, sessInv_receive env phone raw h⟩

theorem sessInv_sysW : SessInv sysW := by
  constructor
  · intro p vs hp
    by_cases hpp : p = 1
    · subst hpp
      simp [sysW] at hp
      rw [← hp]
      exact Or.inl rfl
    · simp [sysW, hpp] at hp
  · intro p rs hp _hm
    by_cases hpp : p = 1
    · subst hpp
      simp [sysW] at hp
      rw [← hp]
      exact Or.inl rfl
    · simp [sysW, hpp] at hp

theorem attempt_counter_invariant_witness :
    SessInv (start_vocab_session envW 1 sysW).2.1 ∧
    SessInv (start_reading_session envW 1 "" sysW).2.1 ∧
    SessInv (start_open_reading_session envW 1 sysW).2.1 ∧
    SessInv (handle_vocab_reply envW 1 "mean" sysW).2.1 ∧
    SessInv (handle_reading_reply envW 1 "mean" sysW).2.1 ∧
    SessInv (handle_open_reading_reply envW 1 "mean" sysW).2.1 ∧
    SessInv (vocab_default_flow envW 1 "mean" sysW).2.1 ∧
    SessInv (receive_message envW 1 "hello" sysW).2.1 :=
  attempt_counter_invariant envW 1 "mean" "" "hello" sysW sessInv_sysW

end GrowTalk
